import Mathlib

/-!
Verification of the jpeg2pdf converter (src/main.rs, src/pdf.rs) against its
natural-language specification.  The repository's `jpeg` module is referenced
by `mod jpeg;` but its file is not among the provided sources, so the JPEG
data model (`Image`, `Block`) and its two methods used by the provided code
(`Block::is_required`, `Image::write`) are modelled from the specification;
everything else is translated from the Rust source.  Byte streams are
modelled as `List Nat` (one entry per output byte); the ASCII text written by
the Rust `write!` calls is turned into bytes by `asciiStr`.
-/

namespace Jpeg2Pdf

/-- Bytes of an ASCII string (each char below 128 is one byte, matching the
UTF-8 bytes Rust `write!` emits for the ASCII-only format strings used here). -/
def asciiStr (s : String) : List Nat := s.data.map Char.toNat

/-- Rust format specifier `{:010}`: decimal digits left-padded with zeros to
at least ten characters. -/
def zeroPad10 (n : Nat) : String :=
  String.mk (List.replicate (10 - (toString n).length) '0') ++ toString n

/- ---------------------------------------------------------------------- -/
/- JPEG data model, modelled from the spec (src/jpeg.rs is not provided).  -/
/- ---------------------------------------------------------------------- -/

/-- Modelled from the spec §3: color space of the parsed image,
`{Grayscale, Rgb, Cmyk, Other(u8)}`. -/
inductive ColorSpace
  | Grayscale
  | Rgb
  | Cmyk
  | Other (n : Nat)
  deriving DecidableEq

/-- Modelled from the spec §3: JFIF density unit,
`{NoUnit, DotsPerInch, DotsPerCentimeter, Other(u8)}`. -/
inductive DensityUnit
  | NoUnit
  | DotsPerInch
  | DotsPerCentimeter
  | Other (u : Nat)
  deriving DecidableEq

/-- Modelled from the spec §3: a leading segment
`{marker, payload: byte sequence, required: bool}`. -/
structure Block where
  marker : Nat
  payload : List Nat
  required : Bool
  deriving DecidableEq

/-- Modelled from the spec: `Block::is_required` lives in the missing
src/jpeg.rs; per §3/§4.2 it reports the segment's `required` classification
(the caller keeps exactly the segments with `required == true`). -/
def Block.is_required (b : Block) : Bool := b.required

/-- Modelled from the spec §3: the Image Descriptor.  Field widths in the
Rust code are u32/u8/u16; they are modelled as `Nat` (all arithmetic done on
them below stays far below 2^64, so u64 arithmetic in main.rs is exact). -/
structure Image where
  width : Nat
  height : Nat
  bit_depth : Nat
  color_space : ColorSpace
  density_unit : DensityUnit
  density_x : Nat
  density_y : Nat
  leading_blocks : List Block
  scan_data : List Nat
  deriving DecidableEq

/-- Big-endian bytes of a 16-bit value (used for re-emitted length fields). -/
def beU16 (n : Nat) : List Nat := [n / 256 % 256, n % 256]

/-- Modelled from the spec §4.3: a kept segment is re-emitted as its marker
(0xFF then the code byte), a recomputed big-endian length `payload + 2`, and
the untouched payload bytes. -/
def Block.bytes (b : Block) : List Nat :=
  0xFF :: b.marker :: (beU16 (b.payload.length + 2) ++ b.payload)

/-- Modelled from the spec §4.3: `Image::write` (in the missing src/jpeg.rs)
emits start-of-image, each entry of `leading_blocks` in order, then
`scan_data` verbatim.  Writing into a `Vec<u8>` cannot fail, so it is total. -/
def Image.write (img : Image) : List Nat :=
  0xFF :: 0xD8 :: ((img.leading_blocks.flatMap Block.bytes) ++ img.scan_data)

/- ---------------------------------------------------------------------- -/
/- PDF object model, translated from src/pdf.rs.                           -/
/- ---------------------------------------------------------------------- -/

/-- src/pdf.rs `Catalog`. -/
structure Catalog where
  root_page_id : Nat
  deriving DecidableEq

/-- src/pdf.rs `Catalog::write_to_pdf`. -/
def Catalog.write_to_pdf (c : Catalog) : List Nat :=
  asciiStr "<< /Type /Catalog"
    ++ asciiStr (" /Pages " ++ toString c.root_page_id ++ " 0 R")
    ++ asciiStr " >>\n"

/-- src/pdf.rs `Pages`. -/
structure Pages where
  page_ids : List Nat
  deriving DecidableEq

/-- src/pdf.rs `Pages::write_to_pdf`. -/
def Pages.write_to_pdf (p : Pages) : List Nat :=
  asciiStr "<< /Type /Pages"
    ++ asciiStr " /Kids ["
    ++ (p.page_ids.flatMap fun page_id => asciiStr (" " ++ toString page_id ++ " 0 R"))
    ++ asciiStr " ]"
    ++ asciiStr (" /Count " ++ toString p.page_ids.length)
    ++ asciiStr " >>\n"

/-- src/pdf.rs `Page`. -/
structure Page where
  parent_id : Nat
  resources_id : Nat
  contents_id : Nat
  width_pt : Nat
  height_pt : Nat
  deriving DecidableEq

/-- src/pdf.rs `Page::write_to_pdf`. -/
def Page.write_to_pdf (p : Page) : List Nat :=
  asciiStr "<< /Type /Page"
    ++ asciiStr (" /Parent " ++ toString p.parent_id ++ " 0 R")
    ++ asciiStr (" /Resources " ++ toString p.resources_id ++ " 0 R")
    ++ asciiStr (" /MediaBox [ 0 0 " ++ toString p.width_pt ++ " " ++ toString p.height_pt ++ " ]")
    ++ asciiStr (" /Contents " ++ toString p.contents_id ++ " 0 R")
    ++ asciiStr " >>\n"

/-- src/pdf.rs `PageResources`. -/
structure PageResources where
  image_xobject_ids : List Nat
  deriving DecidableEq

/-- src/pdf.rs `PageResources::write_to_pdf` (`enumerate` gives each image
its index for the `/ImN` name). -/
def PageResources.write_to_pdf (r : PageResources) : List Nat :=
  asciiStr "<< /ProcSet [ /PDF /Text /ImageB /ImageC /ImageI ]"
    ++ asciiStr " /XObject <<"
    ++ (r.image_xobject_ids.enum.flatMap fun p =>
          asciiStr (" /Im" ++ toString p.1 ++ " " ++ toString p.2 ++ " 0 R"))
    ++ asciiStr " >>"
    ++ asciiStr " >>\n"

/-- src/pdf.rs `PageContents`.  The Rust field is a `String`; it is modelled
by its bytes, so `commands.length` is exactly Rust's `self.commands.len()`. -/
structure PageContents where
  commands : List Nat
  deriving DecidableEq

/-- src/pdf.rs `PageContents::write_to_pdf`. -/
def PageContents.write_to_pdf (pc : PageContents) : List Nat :=
  asciiStr ("<< /Length " ++ toString pc.commands.length ++ " >>\n")
    ++ asciiStr "stream\n"
    ++ pc.commands
    ++ asciiStr "\nendstream\n"

/-- src/pdf.rs `ImageXObject`. -/
structure ImageXObject where
  width : Nat
  height : Nat
  color_space : String
  bits_per_component : Nat
  interpolate : Bool
  data_filters : List String
  data : List Nat
  deriving DecidableEq

/-- src/pdf.rs `ImageXObject::from_jpeg_image`: maps the descriptor's color
space to the PDF name (`None` for `Other`), copies dimensions and bit depth,
tags the data with the `/DCTDecode` pass-through filter, and embeds the
rewritten JPEG bytes. -/
def ImageXObject.from_jpeg_image (jpeg_image : Image) : Option ImageXObject :=
  match jpeg_image.color_space with
  | ColorSpace.Other _ => none
  | cs =>
      let color_space :=
        match cs with
        | ColorSpace.Grayscale => "/DeviceGray"
        | ColorSpace.Rgb => "/DeviceRGB"
        | ColorSpace.Cmyk => "/DeviceCMYK"
        | ColorSpace.Other _ => ""
      some {
        width := jpeg_image.width
        height := jpeg_image.height
        color_space := color_space
        bits_per_component := jpeg_image.bit_depth
        interpolate := false
        data_filters := ["/DCTDecode"]
        data := jpeg_image.write
      }

/-- src/pdf.rs `ImageXObject::write_to_pdf`. -/
def ImageXObject.write_to_pdf (x : ImageXObject) : List Nat :=
  asciiStr "<< /Type /XObject /Subtype /Image"
    ++ asciiStr (" /Width " ++ toString x.width)
    ++ asciiStr (" /Height " ++ toString x.height)
    ++ asciiStr (" /ColorSpace " ++ x.color_space)
    ++ asciiStr (" /BitsPerComponent " ++ toString x.bits_per_component)
    ++ (if x.data_filters.length > 0 then
          asciiStr " /Filter ["
            ++ (x.data_filters.flatMap fun f => asciiStr (" " ++ f))
            ++ asciiStr " ]"
        else [])
    ++ asciiStr (" /Length " ++ toString x.data.length)
    ++ asciiStr " >>\nstream\n"
    ++ x.data
    ++ asciiStr "\nendstream\n"

/-- src/pdf.rs `ObjectData`. -/
inductive ObjectData
  | Catalog (c : Catalog)
  | Pages (p : Pages)
  | Page (p : Page)
  | PageResources (r : PageResources)
  | PageContents (pc : PageContents)
  | ImageXObject (x : ImageXObject)
  deriving DecidableEq

/-- src/pdf.rs `ObjectData::write_to_pdf`: dispatch to the variant. -/
def ObjectData.write_to_pdf : ObjectData → List Nat
  | ObjectData.Catalog c => c.write_to_pdf
  | ObjectData.Pages p => p.write_to_pdf
  | ObjectData.Page p => p.write_to_pdf
  | ObjectData.PageResources r => r.write_to_pdf
  | ObjectData.PageContents pc => pc.write_to_pdf
  | ObjectData.ImageXObject x => x.write_to_pdf

/-- Whether an `ObjectData` is the `Catalog` variant (the `matches!` test in
src/pdf.rs line 50). -/
def ObjectData.isCatalog : ObjectData → Bool
  | ObjectData.Catalog _ => true
  | _ => false

/-- src/pdf.rs `Document`.  Rust stores the objects in a
`BTreeMap<PdfObjectId, ObjectData>`; it is modelled as the map's entry list,
i.e. an association list iterated in exactly the BTreeMap's (ascending-key)
order, with the map's unique-key property available as a hypothesis where a
theorem needs it. -/
structure Document where
  objects : List (Nat × ObjectData)
  deriving DecidableEq

/-- The fixed preamble of `Document::write`: the `%PDF-1.5` line and the
binary-detection comment line (src/pdf.rs lines 17-19). -/
def pdfHeader : List Nat :=
  asciiStr "%PDF-1.5\n" ++ [37, 0xE2, 0xE3, 0xCF, 0xD3, 10]

/-- One object record as emitted by the loop in src/pdf.rs lines 23-29:
`{id} 0 obj\n`, the object body, `endobj\n`. -/
def objRecord (id : Nat) (d : ObjectData) : List Nat :=
  asciiStr (toString id ++ " 0 obj\n") ++ d.write_to_pdf ++ asciiStr "endobj\n"

/-- The object-emission loop of src/pdf.rs lines 22-29: walks the entries,
returning the emitted bytes and the recorded `(id, offset)` pairs, where each
offset is the stream position (relative to the start of the PDF) right before
that object's record is written. -/
def emitObjects : List (Nat × ObjectData) → Nat → List Nat × List (Nat × Nat)
  | [], _ => ([], [])
  | (id, d) :: rest, pos =>
      let r := emitObjects rest (pos + (objRecord id d).length)
      (objRecord id d ++ r.1, (id, pos) :: r.2)

/-- `self.objects.keys().max()` (src/pdf.rs lines 31-34), `none` on an empty
map (where the Rust code panics via `expect("no objects")`). -/
def maxObjId : List (Nat × ObjectData) → Option Nat
  | [] => none
  | (id, _) :: rest =>
      some (match maxObjId rest with
            | none => id
            | some m => max id m)

/-- The id of the first `Catalog` entry in iteration order (src/pdf.rs lines
49-53), `none` when there is none (where the Rust code panics via
`expect("no catalog object found")`). -/
def findCatalogId : List (Nat × ObjectData) → Option Nat
  | [] => none
  | (id, ObjectData.Catalog _) :: _ => some id
  | _ :: rest => findCatalogId rest

/-- The cross-reference-table loop of src/pdf.rs lines 39-47: for each
recorded `(id, offset)` pair in order, first pad with free (`f`) entries
while the running counter is below `id`, then write the in-use (`n`) entry
for `offset`, formatted `{:010}`. -/
def xrefLines : List (Nat × Nat) → Nat → List Nat
  | [], _ => []
  | (id, off) :: rest, cur =>
      ((List.range (id - cur)).flatMap fun _ => asciiStr (zeroPad10 off ++ " 65535 f\r\n"))
        ++ asciiStr (zeroPad10 off ++ " 00000 n\r\n")
        ++ xrefLines rest (max cur id + 1)

/-- The bytes of the object section of a document (everything between the
preamble and the `xref` keyword). -/
def Document.objsBytes (doc : Document) : List Nat :=
  (emitObjects doc.objects pdfHeader.length).1

/-- The `(id, offset)` pairs recorded in `xref_offsets` while writing a
document (offsets relative to the start of the PDF). -/
def Document.xrefOffsets (doc : Document) : List (Nat × Nat) :=
  (emitObjects doc.objects pdfHeader.length).2

/-- The stream position (relative to the start of the PDF) at which the
`xref` keyword is written — `xref_pos` in src/pdf.rs line 36. -/
def Document.xrefPos (doc : Document) : Nat :=
  pdfHeader.length + doc.objsBytes.length

/-- src/pdf.rs `Document::write`, as the full byte stream it produces.
The two `expect` panics (empty object map / no catalog) are modelled as
`none`: on those documents the Rust process aborts and no complete output
exists.  Writing to the supplied writer itself is assumed to succeed (the
`io::Error` paths only propagate writer failures). -/
def Document.write (doc : Document) : Option (List Nat) :=
  match maxObjId doc.objects, findCatalogId doc.objects with
  | some maxId, some rootId =>
      some (pdfHeader ++ doc.objsBytes
        ++ asciiStr ("xref\n" ++ "0 " ++ toString (maxId + 1) ++ "\n")
        ++ xrefLines doc.xrefOffsets 0
        ++ asciiStr "trailer\n"
        ++ asciiStr ("<< /Size " ++ toString (maxId + 1))
        ++ asciiStr (" /Root " ++ toString rootId ++ " 0 R")
        ++ asciiStr " >>\n"
        ++ asciiStr "startxref\n"
        ++ asciiStr (toString doc.xrefPos ++ "\n")
        ++ asciiStr "%%EOF\n")
  | _, _ => none

/- ---------------------------------------------------------------------- -/
/- The conversion driver, translated from src/main.rs.                     -/
/- ---------------------------------------------------------------------- -/

/-- The ways the conversion in src/main.rs aborts (each a `panic!`, `expect`
or `unwrap` between parsing the JPEG and creating the output file). -/
inductive ConvError
  | unsupportedBitDepth (d : Nat)
  | unsupportedColorSpace (n : Nat)
  | noDensityUnit
  | unknownDensityUnit (u : Nat)
  | divByZero
  | imageBuildFailed
  deriving DecidableEq

/-- The page-size computation of src/main.rs lines 46-59.  `NoUnit` and
`Other` density units panic; a zero density would make the u64 division
panic, modelled as the explicit `divByZero` error.  u64 arithmetic never
overflows here (width, height are u32 and densities u16, so every product is
far below 2^64), so plain `Nat` arithmetic is exact; Rust integer division
is floor division on these unsigned values, as is `Nat` division. -/
def computePageSize (jpeg : Image) : Except ConvError (Nat × Nat) :=
  match jpeg.density_unit with
  | DensityUnit.NoUnit => Except.error ConvError.noDensityUnit
  | DensityUnit.Other u => Except.error (ConvError.unknownDensityUnit u)
  | DensityUnit.DotsPerInch =>
      if jpeg.density_x = 0 ∨ jpeg.density_y = 0 then Except.error ConvError.divByZero
      else Except.ok ((jpeg.width * 72) / jpeg.density_x,
                      (jpeg.height * 72) / jpeg.density_y)
  | DensityUnit.DotsPerCentimeter =>
      if jpeg.density_x = 0 ∨ jpeg.density_y = 0 then Except.error ConvError.divByZero
      else Except.ok ((jpeg.width * 7200) / (jpeg.density_x * 254),
                      (jpeg.height * 7200) / (jpeg.density_y * 254))

/-- src/main.rs lines 40-43: with `--remove-optional-metadata`, the leading
blocks are filtered in place to those with `is_required()` (`Vec::retain`
keeps exactly the satisfying elements, preserving their order). -/
def filterRequiredBlocks (l : List Block) : List Block :=
  l.filter Block.is_required

/-- src/main.rs lines 45-98: compute the page size, then assemble the fixed
six-object document (catalog, pages, page, resources, contents, image).
The `unwrap` on `from_jpeg_image` is modelled as `imageBuildFailed`. -/
def buildPdfDocument (jpeg : Image) : Except ConvError Document :=
  match computePageSize jpeg with
  | Except.error e => Except.error e
  | Except.ok (width_pt, height_pt) =>
      match ImageXObject.from_jpeg_image jpeg with
      | none => Except.error ConvError.imageBuildFailed
      | some image =>
          let commands := asciiStr ("q " ++ toString width_pt ++ " 0 0 "
            ++ toString height_pt ++ " 0 0 cm /Im0 Do Q")
          Except.ok {
            objects := [
              (1, ObjectData.Catalog { root_page_id := 2 }),
              (2, ObjectData.Pages { page_ids := [3] }),
              (3, ObjectData.Page { parent_id := 2, resources_id := 4,
                                    contents_id := 5, width_pt := width_pt,
                                    height_pt := height_pt }),
              (4, ObjectData.PageResources { image_xobject_ids := [6] }),
              (5, ObjectData.PageContents { commands := commands }),
              (6, ObjectData.ImageXObject image)
            ] }

/-- src/main.rs `main`, from the parsed JPEG to the document that is written
to the output file.  The output file is only created (line 100) and written
(line 102) when this returns `Except.ok`; every `Except.error` corresponds
to a `panic!` that aborts before `File::create` runs, so no output file and
no output bytes exist on any error path. -/
def runConversion (jpeg : Image) (remove_optional_metadata : Bool) :
    Except ConvError Document :=
  if jpeg.bit_depth ≠ 8 then
    Except.error (ConvError.unsupportedBitDepth jpeg.bit_depth)
  else
    match jpeg.color_space with
    | ColorSpace.Other n => Except.error (ConvError.unsupportedColorSpace n)
    | _ =>
        buildPdfDocument
          (if remove_optional_metadata then
            { jpeg with leading_blocks := filterRequiredBlocks jpeg.leading_blocks }
          else jpeg)

/- ---------------------------------------------------------------------- -/
/- Sample descriptors used as concrete inputs.                             -/
/- ---------------------------------------------------------------------- -/

/-- A 1×1 pixel, 8-bit, single-component (grayscale) image with a JFIF
density of 72×72 DotsPerInch. -/
def img1x1dpi72 : Image :=
  { width := 1, height := 1, bit_depth := 8,
    color_space := ColorSpace.Grayscale,
    density_unit := DensityUnit.DotsPerInch,
    density_x := 72, density_y := 72,
    leading_blocks := [], scan_data := [] }

/-- A 200×100 pixel RGB image with a density of 50×100 DotsPerCentimeter. -/
def img200x100cm : Image :=
  { width := 200, height := 100, bit_depth := 8,
    color_space := ColorSpace.Rgb,
    density_unit := DensityUnit.DotsPerCentimeter,
    density_x := 50, density_y := 100,
    leading_blocks := [], scan_data := [] }

/-- A 100×100 pixel image with a density of 100×100 DotsPerCentimeter (the
concrete input of the spec's §8 DotsPerCentimeter example). -/
def img100x100cm : Image :=
  { width := 100, height := 100, bit_depth := 8,
    color_space := ColorSpace.Rgb,
    density_unit := DensityUnit.DotsPerCentimeter,
    density_x := 100, density_y := 100,
    leading_blocks := [], scan_data := [] }

/-- An image whose JFIF header specified no density unit. -/
def imgNoUnit : Image :=
  { width := 1, height := 1, bit_depth := 8,
    color_space := ColorSpace.Grayscale,
    density_unit := DensityUnit.NoUnit,
    density_x := 0, density_y := 0,
    leading_blocks := [], scan_data := [] }

/-- A 12-bit-precision input. -/
def img12bit : Image :=
  { width := 1, height := 1, bit_depth := 12,
    color_space := ColorSpace.Grayscale,
    density_unit := DensityUnit.DotsPerInch,
    density_x := 72, density_y := 72,
    leading_blocks := [], scan_data := [] }

/- ---------------------------------------------------------------------- -/
/- Helper lemmas.                                                          -/
/- ---------------------------------------------------------------------- -/

/-- The page-size computation reads only the density and dimension fields,
so replacing the leading blocks does not change it. -/
theorem computePageSize_update_blocks (jpeg : Image) (l : List Block) :
    computePageSize { jpeg with leading_blocks := l } = computePageSize jpeg := rfl

/-- A page-size error propagates out of the document build. -/
theorem buildPdfDocument_error (jpeg : Image) (e : ConvError)
    (h : computePageSize jpeg = Except.error e) :
    buildPdfDocument jpeg = Except.error e := by
  simp [buildPdfDocument, h]

/- ---------------------------------------------------------------------- -/
/- Claim theorems.                                                         -/
/- ---------------------------------------------------------------------- -/

/-- C1: for every descriptor whose density unit is DotsPerInch (and whose
densities are nonzero, so the u64 divisions do not panic), the computed page
size is `(floor (width_px * 72 / density_x), floor (height_px * 72 /
density_y))` — `Nat` division is floor division. -/
theorem pageSize_dotsPerInch (jpeg : Image)
    (hu : jpeg.density_unit = DensityUnit.DotsPerInch)
    (hx : 0 < jpeg.density_x) (hy : 0 < jpeg.density_y) :
    computePageSize jpeg =
      Except.ok (jpeg.width * 72 / jpeg.density_x,
                 jpeg.height * 72 / jpeg.density_y) := by
  have hx' : jpeg.density_x ≠ 0 := by omega
  have hy' : jpeg.density_y ≠ 0 := by omega
  simp [computePageSize, hu, hx', hy']

/-- C1 witness: the 1×1 pixel, 8-bit grayscale image at 72×72 DotsPerInch
yields a page size of exactly 1pt × 1pt. -/
theorem pageSize_dotsPerInch_one :
    0 < img1x1dpi72.density_x ∧
    computePageSize img1x1dpi72 = Except.ok (1, 1) :=
  ⟨by decide, by simpa using pageSize_dotsPerInch img1x1dpi72 rfl (by decide) (by decide)⟩

/-- C2: for every descriptor whose density unit is DotsPerCentimeter (and
whose densities are nonzero), the computed page size is
`(floor (width_px * 7200 / (density_x * 254)),
  floor (height_px * 7200 / (density_y * 254)))`. -/
theorem pageSize_dotsPerCentimeter (jpeg : Image)
    (hu : jpeg.density_unit = DensityUnit.DotsPerCentimeter)
    (hx : 0 < jpeg.density_x) (hy : 0 < jpeg.density_y) :
    computePageSize jpeg =
      Except.ok (jpeg.width * 7200 / (jpeg.density_x * 254),
                 jpeg.height * 7200 / (jpeg.density_y * 254)) := by
  have hx' : jpeg.density_x ≠ 0 := by omega
  have hy' : jpeg.density_y ≠ 0 := by omega
  simp [computePageSize, hu, hx', hy']

/-- C2 witness: a 200×100 image at 50×100 DotsPerCentimeter yields
`(floor (200*7200/12700), floor (100*7200/25400)) = (113, 28)`. -/
theorem pageSize_dotsPerCentimeter_sample :
    0 < img200x100cm.density_x ∧
    computePageSize img200x100cm = Except.ok (113, 28) :=
  ⟨by decide, by simpa using pageSize_dotsPerCentimeter img200x100cm rfl (by decide) (by decide)⟩

/-- C3 counterexample: on the 100×100 image at 100×100 DotsPerCentimeter the
code computes `width_pt = floor (100*7200/(100*254)) = floor (720000/25400)
= 28`, not 283 as the claim states. -/
theorem pageSize_cm100_not_283 :
    computePageSize img100x100cm = Except.ok (28, 28) ∧ (28 : Nat) ≠ 283 :=
  ⟨rfl, by decide⟩

/-- C3 amended: for the 100-by-100-pixel image with density 100 by 100
DotsPerCentimeter, the computed page width is `width_pt =
floor (100*7200/(100*254)) = 28` (and the height equally 28). -/
theorem pageSize_cm100_width_28 :
    computePageSize img100x100cm = Except.ok (28, 28) := rfl

/-- C4: a descriptor with density unit NoUnit or an unrecognized code aborts
during the page-size computation — `computePageSize` yields an error, hence
the whole conversion yields an error; `File::create` for the output runs
only after `runConversion` would have returned `ok`, so no output file is
created and no output bytes are produced, and no default resolution is
assumed. -/
theorem abort_on_missing_density (jpeg : Image) (ro : Bool)
    (h : jpeg.density_unit = DensityUnit.NoUnit ∨
         ∃ u, jpeg.density_unit = DensityUnit.Other u) :
    (∃ e, computePageSize jpeg = Except.error e) ∧
    (∃ e, runConversion jpeg ro = Except.error e) := by
  have hcp : ∃ e, computePageSize jpeg = Except.error e := by
    rcases h with h | ⟨u, h⟩
    · exact ⟨ConvError.noDensityUnit, by simp [computePageSize, h]⟩
    · exact ⟨ConvError.unknownDensityUnit u, by simp [computePageSize, h]⟩
  refine ⟨hcp, ?_⟩
  obtain ⟨e, he⟩ := hcp
  unfold runConversion
  by_cases h8 : jpeg.bit_depth ≠ 8
  · rw [if_pos h8]
    exact ⟨_, rfl⟩
  · rw [if_neg h8]
    have he' : computePageSize
        (if ro then { jpeg with leading_blocks := filterRequiredBlocks jpeg.leading_blocks }
         else jpeg) = Except.error e := by
      cases ro
      · simpa using he
      · simpa [computePageSize_update_blocks] using he
    cases hcs : jpeg.color_space with
    | Other n =>
      exact ⟨_, rfl⟩
    | Grayscale =>
      rw [hcs] at he'
      exact ⟨e, buildPdfDocument_error _ e he'⟩
    | Rgb =>
      rw [hcs] at he'
      exact ⟨e, buildPdfDocument_error _ e he'⟩
    | Cmyk =>
      rw [hcs] at he'
      exact ⟨e, buildPdfDocument_error _ e he'⟩

/-- C4 witness: the NoUnit sample aborts. -/
theorem abort_on_missing_density_sample :
    (∃ e, computePageSize imgNoUnit = Except.error e) ∧
    (∃ e, runConversion imgNoUnit false = Except.error e) :=
  abort_on_missing_density imgNoUnit false (Or.inl rfl)

/-- C5: a descriptor with bit depth other than 8, or with an unresolved
(`Other`) color space, makes the conversion abort; the abort happens before
`File::create` for the output runs, so no output file is created and no
output bytes are written. -/
theorem abort_on_unsupported (jpeg : Image) (ro : Bool)
    (h : jpeg.bit_depth ≠ 8 ∨ ∃ n, jpeg.color_space = ColorSpace.Other n) :
    ∃ e, runConversion jpeg ro = Except.error e := by
  unfold runConversion
  by_cases h8 : jpeg.bit_depth ≠ 8
  · rw [if_pos h8]
    exact ⟨_, rfl⟩
  · rw [if_neg h8]
    rcases h with h | ⟨n, hcs⟩
    · exact absurd h h8
    · rw [hcs]
      exact ⟨_, rfl⟩

/-- C5 witness: the 12-bit sample is rejected. -/
theorem abort_on_unsupported_sample :
    ∃ e, runConversion img12bit false = Except.error e :=
  abort_on_unsupported img12bit false (Or.inl (by decide))

/-- A required segment (a Huffman table) and an optional one (an APP1
segment), used as concrete filter inputs. -/
def blkReq : Block := { marker := 0xC4, payload := [1, 2], required := true }

/-- An optional (APP1) segment. -/
def blkOpt : Block := { marker := 0xE1, payload := [3], required := false }

/-- C6: filtering with "drop optional" (`Vec::retain` with `is_required`)
yields a sublist of the original (so the original relative order is
preserved), its members are exactly the entries with `required == true`
(membership and multiplicity), no required segment is removed, and the
filter is idempotent. -/
theorem filterRequired_spec (l : List Block) :
    (filterRequiredBlocks l).Sublist l ∧
    (∀ b : Block, b ∈ filterRequiredBlocks l ↔ b ∈ l ∧ b.required = true) ∧
    (∀ b : Block, b ∈ l → b.required = true → b ∈ filterRequiredBlocks l) ∧
    (∀ b : Block, (filterRequiredBlocks l).count b
        = if b.required then l.count b else 0) ∧
    filterRequiredBlocks (filterRequiredBlocks l) = filterRequiredBlocks l := by
  refine ⟨List.filter_sublist l, ?_, ?_, ?_, ?_⟩
  · intro b
    simp [filterRequiredBlocks, List.mem_filter, Block.is_required]
  · intro b hb hreq
    simp [filterRequiredBlocks, List.mem_filter, Block.is_required, hb, hreq]
  · intro b
    by_cases hreq : b.required
    · rw [if_pos hreq]
      exact List.count_filter (by simpa [Block.is_required] using hreq)
    · rw [if_neg hreq]
      rw [List.count_eq_zero]
      intro hmem
      exact hreq (List.mem_filter.mp hmem).2
  · simp [filterRequiredBlocks, List.filter_filter]

/-- C6 witness: on a concrete optional/required pair the filter is
idempotent. -/
theorem filterRequired_spec_sample :
    filterRequiredBlocks (filterRequiredBlocks [blkOpt, blkReq])
      = filterRequiredBlocks [blkOpt, blkReq] :=
  (filterRequired_spec [blkOpt, blkReq]).2.2.2.2

/-- C7: for a descriptor resolving to Grayscale/Rgb/Cmyk, the image object
mirrors the descriptor: the declared color-space name is the matching
`/DeviceGray`, `/DeviceRGB` or `/DeviceCMYK`, bits-per-component equals the
descriptor's bit depth, width and height equal the descriptor's, and the
only data filter is the pass-through `/DCTDecode`; for an `Other` color
space no image object is built. -/
theorem from_jpeg_image_correct (jpeg : Image) :
    (jpeg.color_space = ColorSpace.Grayscale →
      ImageXObject.from_jpeg_image jpeg = some {
        width := jpeg.width, height := jpeg.height,
        color_space := "/DeviceGray", bits_per_component := jpeg.bit_depth,
        interpolate := false, data_filters := ["/DCTDecode"],
        data := jpeg.write }) ∧
    (jpeg.color_space = ColorSpace.Rgb →
      ImageXObject.from_jpeg_image jpeg = some {
        width := jpeg.width, height := jpeg.height,
        color_space := "/DeviceRGB", bits_per_component := jpeg.bit_depth,
        interpolate := false, data_filters := ["/DCTDecode"],
        data := jpeg.write }) ∧
    (jpeg.color_space = ColorSpace.Cmyk →
      ImageXObject.from_jpeg_image jpeg = some {
        width := jpeg.width, height := jpeg.height,
        color_space := "/DeviceCMYK", bits_per_component := jpeg.bit_depth,
        interpolate := false, data_filters := ["/DCTDecode"],
        data := jpeg.write }) ∧
    (∀ n, jpeg.color_space = ColorSpace.Other n →
      ImageXObject.from_jpeg_image jpeg = none) := by
  refine ⟨fun h => ?_, fun h => ?_, fun h => ?_, fun n h => ?_⟩ <;>
    simp [ImageXObject.from_jpeg_image, h]

/-- C7 witness: the grayscale sample yields the grayscale image object. -/
theorem from_jpeg_image_correct_sample :
    ImageXObject.from_jpeg_image img1x1dpi72 = some {
      width := 1, height := 1,
      color_space := "/DeviceGray", bits_per_component := 8,
      interpolate := false, data_filters := ["/DCTDecode"],
      data := img1x1dpi72.write } :=
  (from_jpeg_image_correct img1x1dpi72).1 rfl

/-- C9: in both stream-object writers the declared `/Length` value is the
number printed from the length of exactly the bytes emitted between the
`stream\n` keyword and the following `\nendstream`: the page-contents
commands string, respectively the embedded JPEG data. -/
theorem stream_length_matches (pc : PageContents) (x : ImageXObject) :
    (PageContents.write_to_pdf pc
      = asciiStr ("<< /Length " ++ toString pc.commands.length ++ " >>\n")
        ++ asciiStr "stream\n" ++ pc.commands ++ asciiStr "\nendstream\n") ∧
    (∃ dict, ImageXObject.write_to_pdf x
      = dict ++ asciiStr (" /Length " ++ toString x.data.length)
        ++ asciiStr " >>\nstream\n" ++ x.data ++ asciiStr "\nendstream\n") := by
  constructor
  · rfl
  · refine ⟨asciiStr "<< /Type /XObject /Subtype /Image"
      ++ asciiStr (" /Width " ++ toString x.width)
      ++ asciiStr (" /Height " ++ toString x.height)
      ++ asciiStr (" /ColorSpace " ++ x.color_space)
      ++ asciiStr (" /BitsPerComponent " ++ toString x.bits_per_component)
      ++ (if x.data_filters.length > 0 then
            asciiStr " /Filter ["
              ++ (x.data_filters.flatMap fun f => asciiStr (" " ++ f))
              ++ asciiStr " ]"
          else []), ?_⟩
    simp [ImageXObject.write_to_pdf, List.append_assoc]

/-- `keys().max()` is `none` exactly on the empty object map. -/
theorem maxObjId_eq_none (l : List (Nat × ObjectData)) :
    maxObjId l = none ↔ l = [] := by
  cases l <;> simp [maxObjId]

/-- The first-catalog search fails exactly when no entry is a catalog. -/
theorem findCatalogId_eq_none (l : List (Nat × ObjectData)) :
    findCatalogId l = none ↔ ∀ p ∈ l, p.2.isCatalog = false := by
  induction l with
  | nil => simp [findCatalogId]
  | cons hd tl ih =>
    obtain ⟨id, d⟩ := hd
    cases d <;> simp [findCatalogId, ObjectData.isCatalog, ih]

/-- C10: `Document::write` panics (modelled: produces no output) exactly on
a document whose object map is empty or contains no catalog; with at least
one object and a catalog present, both `expect` branches are unreachable and
writing succeeds (the modelled writer, a byte buffer, never fails). -/
theorem document_write_none_iff (doc : Document) :
    (Document.write doc = none ↔
      (doc.objects = [] ∨ ∀ p ∈ doc.objects, p.2.isCatalog = false)) ∧
    ((doc.objects ≠ [] ∧ ∃ p ∈ doc.objects, p.2.isCatalog = true) →
      ∃ out, Document.write doc = some out) := by
  have hiff : Document.write doc = none ↔
      (doc.objects = [] ∨ ∀ p ∈ doc.objects, p.2.isCatalog = false) := by
    unfold Document.write
    constructor
    · intro h
      cases hm : maxObjId doc.objects with
      | none => exact Or.inl ((maxObjId_eq_none _).mp hm)
      | some m =>
        cases hc : findCatalogId doc.objects with
        | none => exact Or.inr ((findCatalogId_eq_none _).mp hc)
        | some r =>
          rw [hm, hc] at h
          simp at h
    · intro h
      rcases h with h | h
      · rw [(maxObjId_eq_none _).mpr h]
      · rw [(findCatalogId_eq_none _).mpr h]
        cases maxObjId doc.objects <;> rfl
  refine ⟨hiff, ?_⟩
  rintro ⟨hne, p, hp, hcat⟩
  cases hw : Document.write doc with
  | some out => exact ⟨out, rfl⟩
  | none =>
    rcases hiff.mp hw with h | h
    · exact absurd h hne
    · rw [h p hp] at hcat
      exact absurd hcat (by simp)

/-- `asciiStr` distributes over string concatenation. -/
theorem asciiStr_append (s t : String) :
    asciiStr (s ++ t) = asciiStr s ++ asciiStr t := by
  simp [asciiStr]

/-- Dropping from a concatenation drops from each part. -/
theorem drop_append_dist (a b : List Nat) (k : Nat) :
    (a ++ b).drop k = a.drop k ++ b.drop (k - a.length) := by
  induction a generalizing k with
  | nil => simp
  | cons x xs ih =>
    cases k with
    | zero => simp
    | succ k => simpa [Nat.succ_sub_succ] using ih k

/-- Every `(id, offset)` pair recorded by the object-emission loop points,
within the emitted object section, at the start of that object's
`{id} 0 obj` header line. -/
theorem emitObjects_mem (l : List (Nat × ObjectData)) (pos id off : Nat)
    (h : (id, off) ∈ (emitObjects l pos).2) :
    pos ≤ off ∧ off - pos ≤ (emitObjects l pos).1.length ∧
    ∃ rest, (emitObjects l pos).1.drop (off - pos)
      = asciiStr (toString id ++ " 0 obj\n") ++ rest := by
  induction l generalizing pos with
  | nil => simp [emitObjects] at h
  | cons hd tl ih =>
    obtain ⟨i, d⟩ := hd
    simp only [emitObjects] at h ⊢
    rcases List.mem_cons.mp h with heq | hmem
    · rw [Prod.mk.injEq] at heq
      obtain ⟨h1, h2⟩ := heq
      subst h1
      subst h2
      refine ⟨Nat.le_refl _, by simp,
        d.write_to_pdf ++ asciiStr "endobj\n"
          ++ (emitObjects tl (off + (objRecord id d).length)).1, ?_⟩
      simp [objRecord, List.append_assoc]
    · obtain ⟨hle, hub, rest, hdrop⟩ := ih (pos + (objRecord i d).length) hmem
      refine ⟨by omega, ?_, rest, ?_⟩
      · rw [List.length_append]
        omega
      · rw [drop_append_dist, List.drop_eq_nil_of_le (by omega), Nat.sub_sub]
        simpa using hdrop

/-- Every recorded pair produces its formatted in-use entry somewhere in the
emitted cross-reference table. -/
theorem xrefLines_mem (ps : List (Nat × Nat)) (cur id off : Nat)
    (h : (id, off) ∈ ps) :
    ∃ u v, xrefLines ps cur
      = u ++ asciiStr (zeroPad10 off ++ " 00000 n\r\n") ++ v := by
  induction ps generalizing cur with
  | nil => simp at h
  | cons hd tl ih =>
    obtain ⟨i, o⟩ := hd
    rcases List.mem_cons.mp h with heq | hmem
    · rw [Prod.mk.injEq] at heq
      obtain ⟨h1, h2⟩ := heq
      subst h1
      subst h2
      exact ⟨(List.range (id - cur)).flatMap
                (fun _ => asciiStr (zeroPad10 off ++ " 65535 f\r\n")),
             xrefLines tl (max cur id + 1),
             by simp [xrefLines, List.append_assoc]⟩
    · obtain ⟨u, v, huv⟩ := ih (max cur i + 1) hmem
      refine ⟨((List.range (i - cur)).flatMap
                (fun _ => asciiStr (zeroPad10 o ++ " 65535 f\r\n")))
              ++ asciiStr (zeroPad10 o ++ " 00000 n\r\n") ++ u, v, ?_⟩
      simp [xrefLines, huv, List.append_assoc]

/-- Dropping at most the first part of a concatenation keeps the second. -/
theorem drop_append_of_le (a b : List Nat) (k : Nat) (hk : k ≤ a.length) :
    (a ++ b).drop k = a.drop k ++ b := by
  rw [drop_append_dist, Nat.sub_eq_zero_of_le hk, List.drop_zero]

/-- Dropping into the middle part of `H ++ A ++ Z` at an offset that lands
inside `A` exposes whatever `A` exposes there. -/
theorem drop_concat_head (H A Z hdr rest : List Nat) (off : Nat)
    (h1 : H.length ≤ off) (h2 : off - H.length ≤ A.length)
    (h3 : A.drop (off - H.length) = hdr ++ rest) :
    (H ++ A ++ Z).drop off = hdr ++ (rest ++ Z) := by
  rw [List.append_assoc, drop_append_dist, List.drop_eq_nil_of_le h1,
      List.nil_append, drop_append_of_le _ _ _ h2, h3, List.append_assoc]

/-- C8: in the byte stream produced by `Document::write` on a writable
document, (a) every in-use cross-reference entry is emitted, formatted
`{:010} 00000 n`, from the recorded offset of its object, and the output
bytes at that offset start exactly with that object's `{id} 0 obj` header
line; (b) the bytes at offset `xref_pos` start with the `xref` keyword; and
(c) the value printed after `startxref` is exactly `xref_pos`.  All offsets
are counted from the start of the emitted PDF. -/
theorem document_write_xref_correct (doc : Document) (out : List Nat)
    (h : Document.write doc = some out) :
    (∀ id off, (id, off) ∈ doc.xrefOffsets →
        (∃ rest, out.drop off = asciiStr (toString id ++ " 0 obj\n") ++ rest) ∧
        (∃ u v, out = u ++ asciiStr (zeroPad10 off ++ " 00000 n\r\n") ++ v)) ∧
    (∃ rest, out.drop doc.xrefPos = asciiStr "xref\n" ++ rest) ∧
    (∃ u, out = u ++ asciiStr "startxref\n"
        ++ asciiStr (toString doc.xrefPos ++ "\n") ++ asciiStr "%%EOF\n") := by
  unfold Document.write at h
  cases hm : maxObjId doc.objects with
  | none =>
    rw [hm] at h
    simp at h
  | some m =>
    cases hc : findCatalogId doc.objects with
    | none =>
      rw [hm, hc] at h
      simp at h
    | some r =>
      rw [hm, hc] at h
      simp only [Option.some.injEq] at h
      subst h
      refine ⟨?_, ?_, ?_⟩
      · intro id off hmem
        obtain ⟨hle, hub, rest, hdrop⟩ :=
          emitObjects_mem doc.objects pdfHeader.length id off hmem
        constructor
        · refine ⟨rest ++ (asciiStr ("xref\n" ++ "0 " ++ toString (m + 1) ++ "\n")
            ++ xrefLines doc.xrefOffsets 0
            ++ asciiStr "trailer\n"
            ++ asciiStr ("<< /Size " ++ toString (m + 1))
            ++ asciiStr (" /Root " ++ toString r ++ " 0 R")
            ++ asciiStr " >>\n"
            ++ asciiStr "startxref\n"
            ++ asciiStr (toString doc.xrefPos ++ "\n")
            ++ asciiStr "%%EOF\n"), ?_⟩
          have hstep := drop_concat_head pdfHeader doc.objsBytes
            (asciiStr ("xref\n" ++ "0 " ++ toString (m + 1) ++ "\n")
              ++ xrefLines doc.xrefOffsets 0
              ++ asciiStr "trailer\n"
              ++ asciiStr ("<< /Size " ++ toString (m + 1))
              ++ asciiStr (" /Root " ++ toString r ++ " 0 R")
              ++ asciiStr " >>\n"
              ++ asciiStr "startxref\n"
              ++ asciiStr (toString doc.xrefPos ++ "\n")
              ++ asciiStr "%%EOF\n")
            (asciiStr (toString id ++ " 0 obj\n")) rest off hle hub hdrop
          calc (pdfHeader ++ doc.objsBytes
                ++ asciiStr ("xref\n" ++ "0 " ++ toString (m + 1) ++ "\n")
                ++ xrefLines doc.xrefOffsets 0
                ++ asciiStr "trailer\n"
                ++ asciiStr ("<< /Size " ++ toString (m + 1))
                ++ asciiStr (" /Root " ++ toString r ++ " 0 R")
                ++ asciiStr " >>\n"
                ++ asciiStr "startxref\n"
                ++ asciiStr (toString doc.xrefPos ++ "\n")
                ++ asciiStr "%%EOF\n").drop off
              = (pdfHeader ++ doc.objsBytes
                ++ (asciiStr ("xref\n" ++ "0 " ++ toString (m + 1) ++ "\n")
                  ++ xrefLines doc.xrefOffsets 0
                  ++ asciiStr "trailer\n"
                  ++ asciiStr ("<< /Size " ++ toString (m + 1))
                  ++ asciiStr (" /Root " ++ toString r ++ " 0 R")
                  ++ asciiStr " >>\n"
                  ++ asciiStr "startxref\n"
                  ++ asciiStr (toString doc.xrefPos ++ "\n")
                  ++ asciiStr "%%EOF\n")).drop off := by
                simp [List.append_assoc]
            _ = _ := by rw [hstep]
        · obtain ⟨u, v, huv⟩ := xrefLines_mem doc.xrefOffsets 0 id off hmem
          refine ⟨pdfHeader ++ doc.objsBytes
            ++ asciiStr ("xref\n" ++ "0 " ++ toString (m + 1) ++ "\n") ++ u,
            v ++ (asciiStr "trailer\n"
              ++ asciiStr ("<< /Size " ++ toString (m + 1))
              ++ asciiStr (" /Root " ++ toString r ++ " 0 R")
              ++ asciiStr " >>\n"
              ++ asciiStr "startxref\n"
              ++ asciiStr (toString doc.xrefPos ++ "\n")
              ++ asciiStr "%%EOF\n"), ?_⟩
          simp [huv, List.append_assoc]
      · refine ⟨asciiStr ("0 " ++ toString (m + 1) ++ "\n")
          ++ (xrefLines doc.xrefOffsets 0
            ++ asciiStr "trailer\n"
            ++ asciiStr ("<< /Size " ++ toString (m + 1))
            ++ asciiStr (" /Root " ++ toString r ++ " 0 R")
            ++ asciiStr " >>\n"
            ++ asciiStr "startxref\n"
            ++ asciiStr (toString doc.xrefPos ++ "\n")
            ++ asciiStr "%%EOF\n"), ?_⟩
        have hsplit : (pdfHeader ++ doc.objsBytes
            ++ asciiStr ("xref\n" ++ "0 " ++ toString (m + 1) ++ "\n")
            ++ xrefLines doc.xrefOffsets 0
            ++ asciiStr "trailer\n"
            ++ asciiStr ("<< /Size " ++ toString (m + 1))
            ++ asciiStr (" /Root " ++ toString r ++ " 0 R")
            ++ asciiStr " >>\n"
            ++ asciiStr "startxref\n"
            ++ asciiStr (toString doc.xrefPos ++ "\n")
            ++ asciiStr "%%EOF\n")
          = (pdfHeader ++ doc.objsBytes)
            ++ (asciiStr ("xref\n" ++ "0 " ++ toString (m + 1) ++ "\n")
              ++ xrefLines doc.xrefOffsets 0
              ++ asciiStr "trailer\n"
              ++ asciiStr ("<< /Size " ++ toString (m + 1))
              ++ asciiStr (" /Root " ++ toString r ++ " 0 R")
              ++ asciiStr " >>\n"
              ++ asciiStr "startxref\n"
              ++ asciiStr (toString doc.xrefPos ++ "\n")
              ++ asciiStr "%%EOF\n") := by
          simp [List.append_assoc]
        rw [hsplit, List.drop_left' (by rw [List.length_append]; rfl)]
        simp [asciiStr_append, List.append_assoc,
          show asciiStr "xref\n0 " = asciiStr "xref\n" ++ asciiStr "0 " from rfl]
      · refine ⟨pdfHeader ++ doc.objsBytes
          ++ asciiStr ("xref\n" ++ "0 " ++ toString (m + 1) ++ "\n")
          ++ xrefLines doc.xrefOffsets 0
          ++ asciiStr "trailer\n"
          ++ asciiStr ("<< /Size " ++ toString (m + 1))
          ++ asciiStr (" /Root " ++ toString r ++ " 0 R")
          ++ asciiStr " >>\n", ?_⟩
        simp [List.append_assoc]

/-- A concrete writable document (a lone catalog). -/
def docXref : Document :=
  { objects := [(1, ObjectData.Catalog { root_page_id := 1 })] }

/-- The bytes `Document::write` emits for `docXref`. -/
def docXrefOut : List Nat := (Document.write docXref).getD []

/-- C8 witness: on the concrete document, every recorded offset points at
its object header, the `xref` keyword sits at `xref_pos`, and `startxref`
prints `xref_pos`. -/
theorem document_write_xref_correct_sample :
    (∀ id off, (id, off) ∈ docXref.xrefOffsets →
        (∃ rest, docXrefOut.drop off
          = asciiStr (toString id ++ " 0 obj\n") ++ rest) ∧
        (∃ u v, docXrefOut
          = u ++ asciiStr (zeroPad10 off ++ " 00000 n\r\n") ++ v)) ∧
    (∃ rest, docXrefOut.drop docXref.xrefPos = asciiStr "xref\n" ++ rest) ∧
    (∃ u, docXrefOut = u ++ asciiStr "startxref\n"
        ++ asciiStr (toString docXref.xrefPos ++ "\n") ++ asciiStr "%%EOF\n") :=
  document_write_xref_correct docXref docXrefOut (by rfl)

/-- A single-object document holding only a catalog. -/
def docCatalogOnly : Document :=
  { objects := [(1, ObjectData.Catalog { root_page_id := 2 })] }

/-- C10 witness: the one-catalog document is written successfully. -/
theorem document_write_none_iff_sample :
    ∃ out, Document.write docCatalogOnly = some out :=
  (document_write_none_iff docCatalogOnly).2
    ⟨by simp [docCatalogOnly],
     ⟨(1, ObjectData.Catalog { root_page_id := 2 }), by simp [docCatalogOnly], rfl⟩⟩

end Jpeg2Pdf